import Mathlib

/-!
Verification of the lane-simulation / collision engine of the `crossy_roads`
repository (a terminal "cross the road/river" game written in Rust).

The repository contains three drafts of the same engine:
  * `---.rs` (under src) — the most complete draft (game-over reasons,
    `last_row_type` tracking, bounds-checked `check_position`); `--.rs` is an
    earlier copy of the same draft whose relevant functions are textually
    identical.  Both are embedded below under the namespace `Canon`.
  * `main.rs` (under src) — an earlier draft with a different `tick` implementation,
    an unchecked `check_position`, and a generator with no log-forcing.
    It is embedded under the namespace `MainRs`.

Modelling conventions:
  * `char` glyph constants (GRASS, TREE, ROAD, CAR, WATER, PAD) become the
    enumeration `Lab`; the code only ever compares them for equality.
  * All randomness (`rng.gen_bool`, `rng.gen_range`) is passed in explicitly:
    a `gen_bool` draw becomes a `Bool` argument, and a `gen_range(lo..hi)`
    draw becomes a `Nat` argument reduced into the range with `%`, so every
    value the Rust generator can produce is reachable by some argument.
  * `u8` counters are modelled as `Nat` with `% 256` applied exactly where
    the Rust code performs a wrapping-capable `+= 1`.
  * Rust panics (out-of-bounds indexing, `unwrap` on `None`) are modelled by
    `Except Unit` where a claim is about crashing; list reads that the code
    only performs in-bounds are modelled with `List.getD`, and the theorems
    carry the corresponding bounds hypotheses.
  * `Key::Escape` calls `std::process::exit` (immediate process termination,
    outside the engine); the embedded key type carries the four directions
    plus a catch-all `other` for every key the `match` ignores.
-/

namespace Crossy

/-- The six glyph constants of the source, used as semantic labels:
`grass`/`tree` for safe lanes, `road`/`car` for lethal lanes,
`water`/`pad` for lethal-unless-occupied lanes. -/
inductive Lab where
  | grass
  | tree
  | road
  | car
  | water
  | pad
deriving DecidableEq, Repr

/-- Directional input keys; `other` stands for any key the source's `match`
falls through on (its `_` arm). `Key::Escape` terminates the process and is
outside the embedding. -/
inductive Key where
  | up
  | down
  | left
  | right
  | other
deriving DecidableEq, Repr

/-- The random draws consumed by one call of `BaseRow::randomized_objects`
in the `---.rs` draft: the 14 Bernoulli occupancy bits, the `gen_range(0..14)`
draw used to force a log, and the (finitely many) `gen_range(0..14)` draws
consumed by the density-capping loop. -/
structure ObjGen where
  draws : List Bool
  forceIdx : Nat
  capDraws : List Nat
deriving DecidableEq, Repr

/-- The random draws consumed by one call of `GameState::create_random_row`
in the `---.rs` draft: the row-type draw, the draws of
`BaseRow::randomized_objects`, and the direction coin. -/
structure RowGen where
  rt : Nat
  obj : ObjGen
  dir : Bool
deriving DecidableEq, Repr

namespace Canon

/-- `BaseRow` of `---.rs` / `--.rs`: a lane's occupancy cells plus its two
glyph labels. -/
structure BaseRow where
  objects : List Bool
  object_label : Lab
  environment_label : Lab
deriving DecidableEq, Repr

/-- The occupied-cell counter `objects.iter().filter(|&&x| x).count()` of
`BaseRow::randomized_objects`. -/
def countTrue : List Bool → Nat
  | [] => 0
  | b :: t => (if b then 1 else 0) + countTrue t

/-- The density-capping loop of `BaseRow::randomized_objects` (`---.rs`
lines 75-82): while more than 3 cells are occupied, draw an index and clear
it if occupied.  The list argument supplies the successive
`gen_range(0..14)` draws; the loop is run for as many draws as supplied
(each real execution consumes finitely many draws). -/
def capLoop : List Bool → Nat → List Nat → List Bool
  | objects, _, [] => objects
  | objects, true_count, index :: rest =>
    if 3 < true_count then
      if objects.getD (index % 14) false then
        capLoop (objects.set (index % 14) false) (true_count - 1) rest
      else
        capLoop objects true_count rest
    else
      objects

/-- `BaseRow::randomized_objects` of `---.rs` (lines 63-89): draw 14
occupancy bits (supplied as `g.draws`), force one occupied cell when the
lane is water and the draw produced none, then cap the occupied count at 3.
-/
def BaseRow.randomized_objects (object_label environment_label : Lab)
    (g : ObjGen) : BaseRow :=
  let objects := g.draws
  let objects :=
    if environment_label = Lab.water ∧ objects.contains true = false then
      objects.set (g.forceIdx % 14) true
    else
      objects
  let true_count := countTrue objects
  { objects := capLoop objects true_count g.capDraws
    object_label := object_label
    environment_label := environment_label }

/-- `DynamicRow` of `---.rs`: a lane plus scroll direction, tick interval
and phase counter (`tick_count`, a `u8` starting at 0). -/
structure DynamicRow where
  row : BaseRow
  direction : Bool
  interval : Nat
  tick_count : Nat
deriving DecidableEq, Repr

/-- `DynamicRow::new` (`---.rs` lines 101-108): `tick_count` starts at 0. -/
def DynamicRow.new (row : BaseRow) (direction : Bool) (interval : Nat) :
    DynamicRow :=
  { row := row, direction := direction, interval := interval, tick_count := 0 }

/-- `DynamicRow::tick` of `---.rs` (lines 110-119): if `tick_count` equals
`interval`, reset it to 0 and report a shift (`some direction`); otherwise
increment it (a `u8` increment, hence `% 256`) and report no shift. -/
def DynamicRow.tick (r : DynamicRow) : DynamicRow × Option Bool :=
  if r.tick_count = r.interval then
    ({ r with tick_count := 0 }, some r.direction)
  else
    ({ r with tick_count := (r.tick_count + 1) % 256 }, none)

/-- `DynamicRow::update_row` of `---.rs` (lines 121-136), specialized to the
14-cell lanes the game builds (the source writes `objects[13]`, which is the
final cell exactly when the length is 14).  `direction = true`: every cell
takes its right neighbour's value and the freshly drawn bit enters at index
13.  `direction = false`: every cell takes its left neighbour's value and
the fresh bit enters at index 0. -/
def DynamicRow.update_row (r : DynamicRow) (newBit : Bool) : DynamicRow :=
  if r.direction then
    { r with row := { r.row with objects := r.row.objects.drop 1 ++ [newBit] } }
  else
    { r with row := { r.row with objects := newBit :: r.row.objects.dropLast } }

/-- The trait objects `Box<dyn RowType>` of `---.rs`: a board row is a
`Stream` (water), a `Road`, or a `Grass` lane.  `Stream::new` and
`Road::new` wrap a `DynamicRow`; `Grass::new` wraps a bare `BaseRow`. -/
inductive RowT where
  | stream (dynamic_row : DynamicRow)
  | road (dynamic_row : DynamicRow)
  | grass (baserow : BaseRow)
deriving DecidableEq, Repr

/-- The `RowType::new(&self) -> &BaseRow` accessor of `---.rs`. -/
def RowT.baseRow : RowT → BaseRow
  | RowT.stream d => d.row
  | RowT.road d => d.row
  | RowT.grass b => b

/-- The `environment_label` read through `RowType::new` — the lane's hazard
class (grass = safe, road = lethal, water = lethal-unless-occupied). -/
def RowT.environment_label (r : RowT) : Lab :=
  r.baseRow.environment_label

/-- Whether the row is one of the two moving (scrolling) lane kinds. -/
def RowT.isMoving : RowT → Bool
  | RowT.stream _ => true
  | RowT.road _ => true
  | RowT.grass _ => false

/-- `check_position` of `---.rs` (identical for `Stream`, `Road`, and
`Grass`, lines 170-176, 204-210, 233-239): bounds-checked occupancy query,
`none` when the column is outside the lane. -/
def RowT.check_position (r : RowT) (column_index : Nat) : Option Bool :=
  if column_index < r.baseRow.objects.length then
    some (r.baseRow.objects.getD column_index false)
  else
    none

/-- `GameState` of `---.rs` (lines 242-250), minus the `KeyReader` (raw
keyboard I/O, consumed as an explicit `Option Key` argument below). -/
structure GameState where
  gameboard : List RowT
  player : Nat × Nat
  player_score : Nat
  game_over : Bool
  last_row_type : Option Nat
  game_over_reason : String
deriving DecidableEq, Repr

/-- Default row used to express the source's direct `gameboard[i]` indexing
with `List.getD`; reachable states keep every used index in bounds. -/
def defaultRow : RowT :=
  RowT.grass { objects := [], object_label := Lab.tree, environment_label := Lab.grass }

/-- `GameState::create_random_row` of `---.rs` (lines 276-297): when the
previous row was a stream (`last_row_type = some 0`) draw the type from
`1..3` (road or grass), otherwise from `0..3`; streams and roads get
interval 2 and a fair-coin direction. -/
def GameState.create_random_row (last_row_type : Option Nat) (g : RowGen) :
    RowT :=
  let row_type := if last_row_type = some 0 then 1 + g.rt % 2 else g.rt % 3
  match row_type with
  | 0 =>
    RowT.stream
      (DynamicRow.new
        { objects := (BaseRow.randomized_objects Lab.pad Lab.water g.obj).objects
          object_label := Lab.pad, environment_label := Lab.water }
        g.dir 2)
  | 1 =>
    RowT.road
      (DynamicRow.new
        { objects := (BaseRow.randomized_objects Lab.car Lab.road g.obj).objects
          object_label := Lab.car, environment_label := Lab.road }
        g.dir 2)
  | _ => RowT.grass (BaseRow.randomized_objects Lab.tree Lab.grass g.obj)

/-- `GameState::new` of `---.rs` (lines 254-274): two grass rows at the
bottom (column 7 of the lowest forced clear), then five rows generated by
`create_random_row(None)`; player spawns at `(7, 0)` with score 0. -/
def GameState.new (g0 g1 : ObjGen) (gA gB gC gD gE : RowGen) : GameState :=
  let bottom_row := BaseRow.randomized_objects Lab.tree Lab.grass g0
  { gameboard :=
      [ RowT.grass { objects := bottom_row.objects.set 7 false
                     object_label := Lab.tree, environment_label := Lab.grass }
      , RowT.grass (BaseRow.randomized_objects Lab.tree Lab.grass g1)
      , GameState.create_random_row none gA
      , GameState.create_random_row none gB
      , GameState.create_random_row none gC
      , GameState.create_random_row none gD
      , GameState.create_random_row none gE ]
    player := (7, 0)
    player_score := 0
    game_over := false
    last_row_type := none
    game_over_reason := "" }

/-- The `match key` of `GameState::update_player` in `---.rs` (lines
356-387): computes `next_position` and performs the frontier branch's side
effects (scroll the board, update `last_row_type` from the new top row at
index 6, increment the score).  Returns the updated state together with
`next_position`. -/
def GameState.move_phase (s : GameState) (k : Key) (g : RowGen) :
    GameState × (Nat × Nat) :=
  match k with
  | Key.up =>
    if s.player.2 < 3 then
      (s, (s.player.1, s.player.2 + 1))
    else if s.player.2 = 3 then
      let board2 := s.gameboard.drop 1 ++ [GameState.create_random_row s.last_row_type g]
      let lrt : Option Nat :=
        match (board2.getD 6 defaultRow).environment_label with
        | Lab.water => some 0
        | Lab.road => some 1
        | _ => some 2
      ({ s with gameboard := board2, last_row_type := lrt,
                player_score := s.player_score + 1 },
       (s.player.1, s.player.2))
    else
      (s, (s.player.1, s.player.2))
  | Key.left =>
    if 0 < s.player.1 then (s, (s.player.1 - 1, s.player.2))
    else (s, (s.player.1, s.player.2))
  | Key.down =>
    if 0 < s.player.2 then (s, (s.player.1, s.player.2 - 1))
    else (s, (s.player.1, s.player.2))
  | Key.right =>
    if s.player.1 < 13 then (s, (s.player.1 + 1, s.player.2))
    else (s, (s.player.1, s.player.2))
  | Key.other => (s, (s.player.1, s.player.2))

/-- `GameState::update_player` of `---.rs` (lines 354-396): no key means no
change; otherwise compute `next_position` (with the frontier branch's side
effects), then the obstacle check of lines 389-392 — `if let Some(true) =
gameboard[next.1].check_position(next.0) { return; }` — and finally commit
`player = next_position`. -/
def GameState.update_player (s : GameState) (key : Option Key) (g : RowGen) :
    GameState :=
  match key with
  | none => s
  | some k =>
    let s1 := (s.move_phase k g).1
    let np := (s.move_phase k g).2
    if (s1.gameboard.getD np.2 defaultRow).check_position np.1 = some true then
      s1
    else
      { s1 with player := np }

/-- The terminal-condition evaluation of `GameState::run` in `---.rs`
(lines 335-344), applied each frame after the lanes have ticked and
`update_player` has resolved the move: road + occupied cell kills, water +
unoccupied cell drowns. -/
def GameState.evaluate_terminal (s : GameState) : GameState :=
  let row := s.gameboard.getD s.player.2 defaultRow
  let pos_check := row.check_position s.player.1
  if row.baseRow.environment_label = Lab.road ∧ pos_check = some true then
    { s with game_over := true, game_over_reason := "Hit by a car" }
  else if row.baseRow.environment_label = Lab.water ∧ pos_check = some false then
    { s with game_over := true, game_over_reason := "Drowned in water" }
  else
    s

/-- Iterated `DynamicRow.tick` (state after `n` calls). -/
def DynamicRow.tickN (r : DynamicRow) : Nat → DynamicRow
  | 0 => r
  | n + 1 => (DynamicRow.tickN r n).tick.1

end Canon

namespace MainRs

/-- `Stream` of `main.rs` (its `BaseRow` and `DynamicRow` are textually the
same structures as the `Canon` ones, so those are reused). -/
structure Stream where
  dynamic_row : Crossy.Canon.DynamicRow
deriving DecidableEq, Repr

/-- `Stream::new` of `main.rs` (lines 106-110): wraps the cells with the
`PAD`/`WATER` labels and `tick_count = 0`. -/
def Stream.new (objects : List Bool) (interval : Nat) (direction : Bool) :
    Stream :=
  { dynamic_row :=
      Crossy.Canon.DynamicRow.new
        { objects := objects, object_label := Lab.pad
          environment_label := Lab.water }
        direction interval }

/-- `Stream::tick` of `main.rs` (lines 117-130): increment `tick_count` (a
`u8`, hence `% 256`); once it reaches `interval`, reset it and move the
cells.  The source pops/removes from a `clone()` of the cell vector and
inserts/pushes into the original, so the original keeps all its cells and
additionally gains the copied one: `insert(0, clone().pop())` becomes
`last :: objects` and `push(clone().remove(0))` becomes
`objects ++ [head]` (the `unwrap`/`remove(0)` would panic only on an empty
lane, which no constructed lane is; the defaults below are never reached
for nonempty lanes).  `Road::tick` (lines 153-166) is textually identical.
-/
def Stream.tick (s : Stream) : Stream × Option Bool :=
  let d := s.dynamic_row
  let tc := (d.tick_count + 1) % 256
  if d.interval ≤ tc then
    let objects :=
      if d.direction then
        d.row.objects.getLastD false :: d.row.objects
      else
        d.row.objects ++ [d.row.objects.headD false]
    ({ dynamic_row := { d with tick_count := 0, row := { d.row with objects := objects } } },
     some true)
  else
    ({ dynamic_row := { d with tick_count := tc } }, none)

/-- `Stream::check_position` of `main.rs` (lines 131-134):
`Some(objects[column_index])` with a direct, unchecked index — an
out-of-bounds column panics, modelled as `Except.error ()`. -/
def Stream.check_position (s : Stream) (column_index : Nat) :
    Except Unit Bool :=
  if column_index < s.dynamic_row.row.objects.length then
    Except.ok (s.dynamic_row.row.objects.getD column_index false)
  else
    Except.error ()

/-- `BaseRow::randomized_objects` of `main.rs` (lines 61-72): just the 14
Bernoulli bits — no log-forcing and no density cap. -/
def BaseRow.randomized_objects (object_label environment_label : Lab)
    (draws : List Bool) : Crossy.Canon.BaseRow :=
  { objects := draws, object_label := object_label
    environment_label := environment_label }

/-- `GameState::create_random_row` of `main.rs` (lines 224-236): type from
`0..=2`, interval from `1..=5`, fair-coin direction, and the cells always
drawn by `randomized_objects(TREE, GRASS)` (whose labels are then replaced
by the respective lane constructor).  The produced trait object is the same
shape as the `Canon` one, so `Canon.RowT` is reused. -/
def create_random_row (rt ivl : Nat) (direction : Bool) (draws : List Bool) :
    Crossy.Canon.RowT :=
  let row_type := rt % 3
  let interval := 1 + ivl % 5
  let objects := (BaseRow.randomized_objects Lab.tree Lab.grass draws).objects
  match row_type with
  | 0 =>
    Crossy.Canon.RowT.stream
      (Crossy.Canon.DynamicRow.new
        { objects := objects, object_label := Lab.pad
          environment_label := Lab.water }
        direction interval)
  | 1 =>
    Crossy.Canon.RowT.road
      (Crossy.Canon.DynamicRow.new
        { objects := objects, object_label := Lab.car
          environment_label := Lab.road }
        direction interval)
  | _ =>
    Crossy.Canon.RowT.grass
      { objects := objects, object_label := Lab.tree
        environment_label := Lab.grass }

/-- Iterated `Stream.tick` (state after `n` calls). -/
def Stream.tickN (s : Stream) : Nat → Stream
  | 0 => s
  | n + 1 => (Stream.tickN s n).tick.1

end MainRs

/-! Concrete instances used to instantiate the theorems below. -/

/-- A concrete 14-cell water `BaseRow` with no occupied cell. -/
def bWit : Canon.BaseRow :=
  { objects := List.replicate 14 false, object_label := Lab.pad
    environment_label := Lab.water }

/-- A grass lane with all 14 cells clear. -/
def grassClear : Canon.RowT :=
  Canon.RowT.grass
    { objects := List.replicate 14 false, object_label := Lab.tree
      environment_label := Lab.grass }

/-- A road lane occupied exactly at column 7 (a car at column 7). -/
def roadOcc7 : Canon.RowT :=
  Canon.RowT.road
    (Canon.DynamicRow.new
      { objects := (List.replicate 14 false).set 7 true
        object_label := Lab.car, environment_label := Lab.road }
      true 2)

/-- A water lane occupied exactly at column 7 (a log at column 7). -/
def streamOcc7 : Canon.RowT :=
  Canon.RowT.stream
    (Canon.DynamicRow.new
      { objects := (List.replicate 14 false).set 7 true
        object_label := Lab.pad, environment_label := Lab.water }
      true 2)

/-- An `ObjGen` whose 14 Bernoulli draws are all false, with no capping
draws. -/
def objGenEmpty : ObjGen :=
  { draws := List.replicate 14 false, forceIdx := 0, capDraws := [] }

/-- Generator draws that make `create_random_row` produce a grass lane. -/
def gGrass : RowGen := { rt := 2, obj := objGenEmpty, dir := true }

/-- Generator draws that make `create_random_row (none)` produce a water
lane. -/
def gWater : RowGen := { rt := 0, obj := objGenEmpty, dir := true }

/-- A game state whose forward candidate cell (column 7 of row 1) holds a
car: the candidate lane is lethal and occupied. -/
def sBlocked : Canon.GameState :=
  { gameboard := [grassClear, roadOcc7, grassClear, grassClear, grassClear,
                  grassClear, grassClear]
    player := (7, 0), player_score := 0, game_over := false
    last_row_type := none, game_over_reason := "" }

/-- A game state whose forward candidate cell (column 7 of row 1) is clear.
-/
def sClear : Canon.GameState :=
  { gameboard := [grassClear, grassClear, grassClear, grassClear, grassClear,
                  grassClear, grassClear]
    player := (7, 0), player_score := 0, game_over := false
    last_row_type := none, game_over_reason := "" }

/-- A game state with the player at the frontier row 3; after the scroll
the lane arriving at row 3 (the original row 4) holds a car at the player's
column, so the post-scroll occupancy check rejects the position update. -/
def sFront : Canon.GameState :=
  { gameboard := [roadOcc7, grassClear, grassClear, grassClear, roadOcc7,
                  grassClear, grassClear]
    player := (7, 3), player_score := 0, game_over := false
    last_row_type := none, game_over_reason := "" }

/-- A freshly initialized board whose five `create_random_row (none)` draws
produce water lanes at indices 2 and 3 (both draws pick row type 0, which
`last_row_type = none` does not restrict). -/
def sInitWW : Canon.GameState :=
  Canon.GameState.new objGenEmpty objGenEmpty gWater gWater gGrass gGrass gGrass

/-- A game state with the player standing on the car cell of a road lane. -/
def sOnRoad : Canon.GameState :=
  { gameboard := [grassClear, roadOcc7, grassClear, grassClear, grassClear,
                  grassClear, grassClear]
    player := (7, 1), player_score := 0, game_over := false
    last_row_type := none, game_over_reason := "" }

/-- A `main.rs` stream with 14 clear cells, interval 1, direction true;
its very next `tick` shifts. -/
def mStream14 : MainRs.Stream :=
  MainRs.Stream.new (List.replicate 14 false) 1 true

/-! ## Helper lemmas -/

/-- One step of the modulus of a counter: `(n+1) % m` either wraps to `0` or
is `n % m + 1`. -/
theorem succ_mod_step (n m : Nat) (h : 0 < m) :
    (n + 1) % m = if n % m + 1 = m then 0 else n % m + 1 := by
  have hd := Nat.div_add_mod n m
  have hr : n % m < m := Nat.mod_lt _ h
  by_cases hc : n % m + 1 = m
  · have he : n + 1 = m * (n / m) + m := by omega
    rw [he, if_pos hc, ← Nat.mul_succ, Nat.mul_mod_right]
  · have hlt : n % m + 1 < m := by omega
    have he : n + 1 = m * (n / m) + (n % m + 1) := by omega
    rw [he, if_neg hc, Nat.mul_add_mod, Nat.mod_eq_of_lt hlt]

/-- A 1-indexed call counter hits the end of a period of length `m` exactly
at the multiples of `m`. -/
theorem pred_mod_eq_iff_dvd (j m : Nat) (hj : 1 ≤ j) (hm : 0 < m) :
    (j - 1) % m = m - 1 ↔ m ∣ j := by
  obtain ⟨n, rfl⟩ : ∃ n, j = n + 1 := ⟨j - 1, by omega⟩
  have hstep := succ_mod_step n m hm
  have hr : n % m < m := Nat.mod_lt _ hm
  simp only [Nat.add_sub_cancel]
  constructor
  · intro h
    have hc : n % m + 1 = m := by omega
    rw [if_pos hc] at hstep
    exact Nat.dvd_of_mod_eq_zero hstep
  · intro hd
    obtain ⟨c, hc2⟩ := hd
    have h0 : (n + 1) % m = 0 := by rw [hc2, Nat.mul_mod_right]
    by_contra hne
    have hc : ¬ (n % m + 1 = m) := by omega
    rw [if_neg hc] at hstep
    omega

/-- The state of a `---.rs` `DynamicRow` after `n` calls to `tick`, started
from `DynamicRow::new`: only the phase counter moves, cycling through
`0, 1, …, interval, 0, …` (period `interval + 1`). -/
theorem canon_tickN_closed (b : Canon.BaseRow) (dir : Bool) (k : Nat)
    (hk : k ≤ 255) (n : Nat) :
    Canon.DynamicRow.tickN (Canon.DynamicRow.new b dir k) n =
      { row := b, direction := dir, interval := k, tick_count := n % (k + 1) } := by
  induction n with
  | zero => simp [Canon.DynamicRow.tickN, Canon.DynamicRow.new]
  | succ n ih =>
    rw [Canon.DynamicRow.tickN, ih]
    have hstep := succ_mod_step n (k + 1) (by omega)
    have hr : n % (k + 1) < k + 1 := Nat.mod_lt _ (by omega)
    by_cases hc : n % (k + 1) = k
    · rw [hstep, if_pos (by omega)]
      simp [Canon.DynamicRow.tick, hc]
    · rw [hstep, if_neg (by omega)]
      have hlt : n % (k + 1) + 1 < 256 := by omega
      simp [Canon.DynamicRow.tick, hc, Nat.mod_eq_of_lt hlt]

/-- The phase counter of a `main.rs` `Stream` after `n` calls to `tick`,
started from `Stream::new`: it cycles through `0, 1, …, interval - 1`
(period `interval`), independently of the cell mutations. -/
theorem mainrs_tickN_phase (objs : List Bool) (dir : Bool) (k : Nat)
    (hk1 : 1 ≤ k) (hk : k ≤ 255) (n : Nat) :
    (MainRs.Stream.tickN (MainRs.Stream.new objs k dir) n).dynamic_row.tick_count
        = n % k
    ∧ (MainRs.Stream.tickN (MainRs.Stream.new objs k dir) n).dynamic_row.interval
        = k := by
  induction n with
  | zero =>
    simp [MainRs.Stream.tickN, MainRs.Stream.new, Canon.DynamicRow.new]
  | succ n ih =>
    obtain ⟨h1, h2⟩ := ih
    rw [MainRs.Stream.tickN]
    have hr : n % k < k := Nat.mod_lt _ (by omega)
    have hstep := succ_mod_step n k (by omega)
    have h256 : (n % k + 1) % 256 = n % k + 1 := Nat.mod_eq_of_lt (by omega)
    have hk256 : k % 256 = k := Nat.mod_eq_of_lt (by omega)
    by_cases hc : n % k + 1 = k
    · rw [hstep, if_pos hc]
      simp [MainRs.Stream.tick, h1, h2, h256, hc, hk256]
    · rw [hstep, if_neg hc]
      have hle : ¬ k ≤ n % k + 1 := by omega
      simp [MainRs.Stream.tick, h1, h2, h256, hle]

/-! ## Claim theorems -/

/-- C1 (corrected).  Counterexample to the claim as stated: for a `---.rs`
`DynamicRow` with `interval = 2`, ticked from its initial state, neither of
the first two calls to `tick` produces a shift — so it is false that
exactly one shift occurs on every 2nd call (the first shift only happens on
call 3). -/
theorem canon_tick_no_shift_in_first_interval :
    ((Canon.DynamicRow.tickN (Canon.DynamicRow.new bWit true 2) 0).tick.2 = none)
    ∧ ((Canon.DynamicRow.tickN (Canon.DynamicRow.new bWit true 2) 1).tick.2 = none) := by
  decide

/-- C1 (corrected): for every moving lane constructed with interval `k ≥ 1`
and ticked from its initial state, the `j`-th call to `tick` (1-indexed)
shifts exactly when `j` is a multiple of `k + 1` in the `---.rs` draft
(whose phase counter resets to 0 exactly when it reaches `interval`, so the
period is `k + 1`), and exactly when `j` is a multiple of `k` in the
`main.rs` draft.  In both drafts all other calls produce no shift. -/
theorem tick_period_by_draft (k j : Nat) (b : Canon.BaseRow)
    (objs : List Bool) (dir : Bool) (hk1 : 1 ≤ k) (hk : k ≤ 255)
    (hj : 1 ≤ j) :
    (((Canon.DynamicRow.tickN (Canon.DynamicRow.new b dir k) (j - 1)).tick.2).isSome = true
        ↔ (k + 1) ∣ j)
    ∧ (((MainRs.Stream.tickN (MainRs.Stream.new objs k dir) (j - 1)).tick.2).isSome = true
        ↔ k ∣ j) := by
  constructor
  · rw [canon_tickN_closed b dir k hk (j - 1)]
    have hiff := pred_mod_eq_iff_dvd j (k + 1) hj (by omega)
    constructor
    · intro hs
      by_cases hc : (j - 1) % (k + 1) = k
      · exact hiff.mp (by omega)
      · simp [Canon.DynamicRow.tick, hc] at hs
    · intro hd
      have hc : (j - 1) % (k + 1) = k := by
        have := hiff.mpr hd
        omega
      simp [Canon.DynamicRow.tick, hc]
  · obtain ⟨h1, h2⟩ := mainrs_tickN_phase objs dir k hk1 hk (j - 1)
    have hr : (j - 1) % k < k := Nat.mod_lt _ (by omega)
    have h256 : ((j - 1) % k + 1) % 256 = (j - 1) % k + 1 :=
      Nat.mod_eq_of_lt (by omega)
    have hiff := pred_mod_eq_iff_dvd j k hj (by omega)
    constructor
    · intro hs
      by_cases hc : k ≤ (j - 1) % k + 1
      · exact hiff.mp (by omega)
      · simp [MainRs.Stream.tick, h1, h2, h256, hc] at hs
    · intro hd
      have hc : (j - 1) % k = k - 1 := hiff.mpr hd
      have : k ≤ (j - 1) % k + 1 := by omega
      simp [MainRs.Stream.tick, h1, h2, h256, this]

/-- Witness for C1's theorem at `k = 2`, `j = 3`: the 3rd call shifts the
`---.rs` row (3 divides 3) and does not shift the `main.rs` row (2 does not
divide 3). -/
theorem tick_period_by_draft_witness :
    (1 ≤ 2 ∧ 2 ≤ 255 ∧ 1 ≤ 3)
    ∧ ((((Canon.DynamicRow.tickN (Canon.DynamicRow.new bWit true 2) (3 - 1)).tick.2).isSome = true
          ↔ (2 + 1) ∣ 3)
       ∧ (((MainRs.Stream.tickN (MainRs.Stream.new (List.replicate 14 false) 2 true) (3 - 1)).tick.2).isSome = true
          ↔ 2 ∣ 3)) :=
  ⟨⟨by decide, by decide, by decide⟩,
   tick_period_by_draft 2 3 bWit (List.replicate 14 false) true
     (by decide) (by decide) (by decide)⟩

/-- `move_phase` never changes the player's coordinates (the frontier
branch scrolls the board but keeps `player` as is; the others only compute
`next_position`). -/
theorem move_phase_player (s : Canon.GameState) (k : Key) (g : RowGen) :
    (s.move_phase k g).1.player = s.player := by
  cases k <;> simp only [Canon.GameState.move_phase] <;> (repeat' split) <;> rfl

/-- `move_phase` increments the score exactly when the key is forward and
the player is on the frontier row 3 (the branch that scrolls the board);
every other branch leaves the score unchanged. -/
theorem move_phase_score (s : Canon.GameState) (k : Key) (g : RowGen) :
    (s.move_phase k g).1.player_score =
      s.player_score + (if k = Key.up ∧ s.player.2 = 3 then 1 else 0) := by
  cases k <;> simp only [Canon.GameState.move_phase]
  case up =>
    by_cases h3 : s.player.2 = 3
    · have h1 : ¬ s.player.2 < 3 := by omega
      simp [h1, h3]
    · by_cases h1 : s.player.2 < 3 <;> simp [h1, h3]
  all_goals (repeat' split) <;> simp_all

/-- `move_phase` changes the board exactly when the key is forward and the
player is on the frontier row 3, in which case lane 0 is retired and a
freshly generated lane is appended at the top. -/
theorem move_phase_board (s : Canon.GameState) (k : Key) (g : RowGen) :
    (s.move_phase k g).1.gameboard =
      if k = Key.up ∧ s.player.2 = 3
      then s.gameboard.drop 1 ++ [Canon.GameState.create_random_row s.last_row_type g]
      else s.gameboard := by
  cases k <;> simp only [Canon.GameState.move_phase]
  case up =>
    by_cases h3 : s.player.2 = 3
    · have h1 : ¬ s.player.2 < 3 := by omega
      simp [h1, h3]
    · by_cases h1 : s.player.2 < 3 <;> simp [h1, h3]
  all_goals (repeat' split) <;> simp_all

/-- The frontier branch of `move_phase` in full: board scrolled, score
incremented, `next_position` equal to the current position. -/
theorem move_phase_frontier_fields (s : Canon.GameState) (g : RowGen)
    (h3 : s.player.2 = 3) :
    (s.move_phase Key.up g).1.gameboard =
        s.gameboard.drop 1 ++ [Canon.GameState.create_random_row s.last_row_type g]
    ∧ (s.move_phase Key.up g).1.player_score = s.player_score + 1
    ∧ (s.move_phase Key.up g).2 = s.player := by
  have h1 : ¬ s.player.2 < 3 := by omega
  refine ⟨?_, ?_, ?_⟩ <;>
    simp only [Canon.GameState.move_phase, if_neg h1, if_pos h3]

/-- The obstacle check at the end of `update_player` never touches the
board: the result's board is always `move_phase`'s board. -/
theorem update_player_some_gameboard (s : Canon.GameState) (k : Key) (g : RowGen) :
    (s.update_player (some k) g).gameboard = (s.move_phase k g).1.gameboard := by
  simp only [Canon.GameState.update_player]
  split <;> rfl

/-- The obstacle check at the end of `update_player` never touches the
score: the result's score is always `move_phase`'s score. -/
theorem update_player_some_score (s : Canon.GameState) (k : Key) (g : RowGen) :
    (s.update_player (some k) g).player_score = (s.move_phase k g).1.player_score := by
  simp only [Canon.GameState.update_player]
  split <;> rfl

/-- The player's position after `update_player`: unchanged when the
candidate cell (on the possibly already-scrolled board) is occupied,
otherwise the candidate.  The test reads only the cell's occupancy, never
the lane's hazard class. -/
theorem update_player_player_split (s : Canon.GameState) (k : Key) (g : RowGen) :
    (s.update_player (some k) g).player =
      if ((s.move_phase k g).1.gameboard.getD (s.move_phase k g).2.2
            Canon.defaultRow).check_position (s.move_phase k g).2.1 = some true
      then s.player
      else (s.move_phase k g).2 := by
  by_cases h : ((s.move_phase k g).1.gameboard.getD (s.move_phase k g).2.2
      Canon.defaultRow).check_position (s.move_phase k g).2.1 = some true
  · simp only [Canon.GameState.update_player, if_pos h]
    exact move_phase_player s k g
  · simp only [Canon.GameState.update_player, if_neg h]

/-- C2 (corrected).  Counterexample to the claim as stated: with the player
at `(7, 0)` and a car at column 7 of the road lane at row 1, the forward
move's candidate cell is in bounds, occupied, and its lane is lethal
(road), yet `update_player` rejects the move and the player does not reach
the candidate `(7, 1)` — contradicting "a move onto an occupied cell of a
Lethal lane is not blocked". -/
theorem road_cell_blocks_forward_move :
    (sBlocked.gameboard.getD 1 Canon.defaultRow).environment_label = Lab.road
    ∧ (sBlocked.gameboard.getD 1 Canon.defaultRow).check_position 7 = some true
    ∧ (sBlocked.update_player (some Key.up) gGrass).player = (7, 0)
    ∧ (sBlocked.update_player (some Key.up) gGrass).player ≠ (7, 1) := by
  decide

/-- C2 (corrected): in the `---.rs` draft a queued move is rejected
(player position unchanged) exactly when the candidate cell is occupied —
regardless of the candidate lane's hazard class, so trees, cars and logs
all block movement — and commits to the candidate otherwise. -/
theorem occupied_cell_blocks_every_move (s : Canon.GameState) (k : Key) (g : RowGen) :
    (s.update_player (some k) g).player =
      if ((s.move_phase k g).1.gameboard.getD (s.move_phase k g).2.2
            Canon.defaultRow).check_position (s.move_phase k g).2.1 = some true
      then s.player
      else (s.move_phase k g).2 :=
  update_player_player_split s k g

/-- C5 (corrected).  Counterexample to the claim as stated: a committed
forward move on a non-frontier row (player `(7, 0)` moves to the clear cell
`(7, 1)`) leaves the score at 0 in the `---.rs` draft — contradicting
"committed forward moves on non-frontier rows also increment the score by
1". -/
theorem committed_forward_move_scoreless :
    (sClear.update_player (some Key.up) gGrass).player = (7, 1)
    ∧ (sClear.update_player (some Key.up) gGrass).player_score = 0 := by
  decide

/-- C5 (corrected): in the `---.rs` draft the score increments by exactly 1
precisely when a forward key arrives with the player on the frontier row 3
(the board-scroll branch, regardless of whether the subsequent occupancy
check rejects the position change); every other frame — including committed
forward moves on non-frontier rows, sideways/backward moves, rejected moves
and frames without input — leaves the score unchanged. -/
theorem score_increment_characterization (s : Canon.GameState)
    (key : Option Key) (g : RowGen) :
    (s.update_player key g).player_score =
      s.player_score + (if key = some Key.up ∧ s.player.2 = 3 then 1 else 0) := by
  cases key with
  | none => simp [Canon.GameState.update_player]
  | some k =>
    simp only [Option.some.injEq]
    rw [update_player_some_score]
    exact move_phase_score s k g

/-- C7 (corrected).  Counterexample to the claim as stated: from `sFront`
(player on row 3 of a 7-lane board) a forward key scrolls the board, yet
the move targets row 4 while the current topmost row of the board is index
6 — the scroll is not triggered by a move targeting the topmost row. -/
theorem scroll_without_topmost_target :
    (sFront.update_player (some Key.up) gGrass).gameboard ≠ sFront.gameboard
    ∧ sFront.player.2 + 1 = 4
    ∧ sFront.gameboard.length - 1 = 6
    ∧ (4 : Nat) ≠ 6 := by
  decide

/-- C7 (corrected): the board scroll (retire lane 0, append a freshly
generated lane) happens exactly when a forward key arrives with the player
on the frontier row 3 (three rows below the topmost lane index 6); on that
trigger the player's position stays clamped at the frontier and the score
increments by 1. -/
theorem scroll_trigger_characterization (s : Canon.GameState)
    (key : Option Key) (g : RowGen) :
    ((s.update_player key g).gameboard =
      if key = some Key.up ∧ s.player.2 = 3
      then s.gameboard.drop 1 ++ [Canon.GameState.create_random_row s.last_row_type g]
      else s.gameboard)
    ∧ (if key = some Key.up ∧ s.player.2 = 3
       then (s.update_player key g).player = s.player
            ∧ (s.update_player key g).player_score = s.player_score + 1
       else True) := by
  cases key with
  | none =>
    refine ⟨by simp [Canon.GameState.update_player], by simp⟩
  | some k =>
    simp only [Option.some.injEq]
    by_cases hcond : k = Key.up ∧ s.player.2 = 3
    · obtain ⟨hk, h3⟩ := hcond
      subst hk
      obtain ⟨hb, hsc, hnp⟩ := move_phase_frontier_fields s g h3
      refine ⟨?_, ?_⟩
      · rw [update_player_some_gameboard, hb, if_pos ⟨rfl, h3⟩]
      · rw [if_pos ⟨rfl, h3⟩]
        refine ⟨?_, ?_⟩
        · rw [update_player_player_split]
          split
          · rfl
          · exact hnp
        · rw [update_player_some_score, hsc]
    · refine ⟨?_, ?_⟩
      · rw [update_player_some_gameboard, move_phase_board, if_neg hcond]
      · rw [if_neg hcond]
        trivial

/-- C10 (confirmed): when a forward key arrives with the player at the
frontier row 3, the scroll and the score increment happen before the
occupancy check; even on a frame where the post-scroll check finds the
player's cell occupied (and therefore skips the position update), the
board has already scrolled and the score has already incremented, while
the player's position is unchanged. -/
theorem frontier_scroll_precedes_block (s : Canon.GameState) (g : RowGen)
    (h3 : s.player.2 = 3)
    (hocc : ((s.gameboard.drop 1 ++ [Canon.GameState.create_random_row s.last_row_type g]).getD 3
        Canon.defaultRow).check_position s.player.1 = some true) :
    (s.update_player (some Key.up) g).gameboard =
        s.gameboard.drop 1 ++ [Canon.GameState.create_random_row s.last_row_type g]
    ∧ (s.update_player (some Key.up) g).player_score = s.player_score + 1
    ∧ (s.update_player (some Key.up) g).player = s.player
    ∧ (s.update_player (some Key.up) g) = (s.move_phase Key.up g).1 := by
  obtain ⟨hb, hsc, hnp⟩ := move_phase_frontier_fields s g h3
  refine ⟨?_, ?_, ?_, ?_⟩
  · rw [update_player_some_gameboard, hb]
  · rw [update_player_some_score, hsc]
  · rw [update_player_player_split]
    split
    · rfl
    · exact hnp
  · simp only [Canon.GameState.update_player]
    rw [hb, hnp, h3, if_pos hocc]

/-- Witness for C10's theorem at `sFront`: the lane scrolling into row 3
carries a car at the player's column, the position update is skipped, and
the board and score have nonetheless changed. -/
theorem frontier_scroll_precedes_block_witness :
    (sFront.player.2 = 3
     ∧ ((sFront.gameboard.drop 1 ++ [Canon.GameState.create_random_row sFront.last_row_type gGrass]).getD 3
          Canon.defaultRow).check_position sFront.player.1 = some true)
    ∧ ((sFront.update_player (some Key.up) gGrass).gameboard =
          sFront.gameboard.drop 1 ++ [Canon.GameState.create_random_row sFront.last_row_type gGrass]
       ∧ (sFront.update_player (some Key.up) gGrass).player_score = sFront.player_score + 1
       ∧ (sFront.update_player (some Key.up) gGrass).player = sFront.player
       ∧ (sFront.update_player (some Key.up) gGrass) = (sFront.move_phase Key.up gGrass).1) :=
  ⟨⟨by decide, by decide⟩,
   frontier_scroll_precedes_block sFront gGrass (by decide) (by decide)⟩

/-- C3 (code bug): `main.rs` `Stream::tick` (and the identical
`Road::tick`) pops from a `clone()` of the cell vector and inserts the
copied cell into the original, so a shifting tick grows the lane: a stream
constructed with 14 cells has 15 cells after its first shift, violating
the fixed-length-14 invariant. -/
theorem main_tick_grows_objects :
    mStream14.dynamic_row.row.objects.length = 14
    ∧ (mStream14.tick.1).dynamic_row.row.objects.length = 15 := by
  decide

/-- C4 (corrected).  Counterexample to the claim as stated: the freshly
initialized board of `---.rs` generates its five upper rows with
`create_random_row(None)`, so nothing stops two consecutive water lanes:
with row-type draws picking streams for board indices 2 and 3, the initial
board holds two adjacent scrolling lanes of the same
lethal-unless-occupied class. -/
theorem initial_board_consecutive_water :
    (sInitWW.gameboard.getD 2 Canon.defaultRow).isMoving = true
    ∧ (sInitWW.gameboard.getD 2 Canon.defaultRow).environment_label = Lab.water
    ∧ (sInitWW.gameboard.getD 3 Canon.defaultRow).isMoving = true
    ∧ (sInitWW.gameboard.getD 3 Canon.defaultRow).environment_label = Lab.water := by
  decide

/-- C4 (corrected): the only consecutive-lane constraint the `---.rs`
generator enforces is water-after-water during scrolling: when called with
`last_row_type = some 0` (previous generated row was a stream),
`create_random_row` draws from `1..3` and returns a road or a grass lane,
never a water lane.  Consecutive road lanes are not prevented, and the
initial board's rows are generated with `last_row_type = none`, so the
freshly initialized board may contain two consecutive water lanes. -/
theorem water_never_follows_water_in_generator (g : RowGen) :
    (Canon.GameState.create_random_row (some 0) g).environment_label = Lab.road
    ∨ (Canon.GameState.create_random_row (some 0) g).environment_label = Lab.grass := by
  have h2 : g.rt % 2 = 0 ∨ g.rt % 2 = 1 := by omega
  rcases h2 with h | h <;>
    simp [Canon.GameState.create_random_row, h, Canon.RowT.environment_label,
      Canon.RowT.baseRow, Canon.DynamicRow.new, Canon.BaseRow.randomized_objects]

/-- C6 (confirmed): the per-frame terminal evaluation of `---.rs`
(`GameState::run`, applied after the lanes have ticked and the player move
has been resolved) sets game over with reason "Hit by a car" iff the
player's cell is occupied and its lane's class is lethal (road), sets game
over with reason "Drowned in water" iff the player's cell is unoccupied
and its lane's class is lethal-unless-occupied (water), and leaves the
game running in every other case — in particular on a safe (grass) lane or
on an occupied water cell. -/
theorem terminal_condition_characterization (s : Canon.GameState)
    (hgo : s.game_over = false) (hreason : s.game_over_reason = "")
    (hcol : s.player.1 < (s.gameboard.getD s.player.2 Canon.defaultRow).baseRow.objects.length) :
    ((s.evaluate_terminal.game_over = true
        ∧ s.evaluate_terminal.game_over_reason = "Hit by a car")
       ↔ ((s.gameboard.getD s.player.2 Canon.defaultRow).environment_label = Lab.road
           ∧ (s.gameboard.getD s.player.2 Canon.defaultRow).baseRow.objects.getD s.player.1 false = true))
    ∧ ((s.evaluate_terminal.game_over = true
        ∧ s.evaluate_terminal.game_over_reason = "Drowned in water")
       ↔ ((s.gameboard.getD s.player.2 Canon.defaultRow).environment_label = Lab.water
           ∧ (s.gameboard.getD s.player.2 Canon.defaultRow).baseRow.objects.getD s.player.1 false = false))
    ∧ (s.evaluate_terminal.game_over = false
       ↔ (¬((s.gameboard.getD s.player.2 Canon.defaultRow).environment_label = Lab.road
             ∧ (s.gameboard.getD s.player.2 Canon.defaultRow).baseRow.objects.getD s.player.1 false = true)
          ∧ ¬((s.gameboard.getD s.player.2 Canon.defaultRow).environment_label = Lab.water
             ∧ (s.gameboard.getD s.player.2 Canon.defaultRow).baseRow.objects.getD s.player.1 false = false))) := by
  have hcheck : (s.gameboard.getD s.player.2 Canon.defaultRow).check_position s.player.1
      = some ((s.gameboard.getD s.player.2 Canon.defaultRow).baseRow.objects.getD s.player.1 false) := by
    unfold Canon.RowT.check_position
    rw [if_pos hcol]
  simp only [Canon.GameState.evaluate_terminal, hcheck, Canon.RowT.environment_label]
  cases hE : (s.gameboard.getD s.player.2 Canon.defaultRow).baseRow.environment_label <;>
    cases hC : (s.gameboard.getD s.player.2 Canon.defaultRow).baseRow.objects.getD s.player.1 false <;>
    simp [hE, hC, hgo, hreason]

/-- Witness for C6's theorem: with the player standing on the car cell of
`sOnRoad`'s road lane, the evaluation ends the game with reason
"Hit by a car". -/
theorem terminal_condition_witness :
    (sOnRoad.game_over = false ∧ sOnRoad.game_over_reason = ""
     ∧ sOnRoad.player.1 < (sOnRoad.gameboard.getD sOnRoad.player.2 Canon.defaultRow).baseRow.objects.length)
    ∧ (((sOnRoad.evaluate_terminal.game_over = true
         ∧ sOnRoad.evaluate_terminal.game_over_reason = "Hit by a car")
        ↔ ((sOnRoad.gameboard.getD sOnRoad.player.2 Canon.defaultRow).environment_label = Lab.road
            ∧ (sOnRoad.gameboard.getD sOnRoad.player.2 Canon.defaultRow).baseRow.objects.getD sOnRoad.player.1 false = true))
       ∧ ((sOnRoad.evaluate_terminal.game_over = true
         ∧ sOnRoad.evaluate_terminal.game_over_reason = "Drowned in water")
        ↔ ((sOnRoad.gameboard.getD sOnRoad.player.2 Canon.defaultRow).environment_label = Lab.water
            ∧ (sOnRoad.gameboard.getD sOnRoad.player.2 Canon.defaultRow).baseRow.objects.getD sOnRoad.player.1 false = false))
       ∧ (sOnRoad.evaluate_terminal.game_over = false
        ↔ (¬((sOnRoad.gameboard.getD sOnRoad.player.2 Canon.defaultRow).environment_label = Lab.road
              ∧ (sOnRoad.gameboard.getD sOnRoad.player.2 Canon.defaultRow).baseRow.objects.getD sOnRoad.player.1 false = true)
           ∧ ¬((sOnRoad.gameboard.getD sOnRoad.player.2 Canon.defaultRow).environment_label = Lab.water
              ∧ (sOnRoad.gameboard.getD sOnRoad.player.2 Canon.defaultRow).baseRow.objects.getD sOnRoad.player.1 false = false)))) :=
  ⟨⟨rfl, rfl, by decide⟩,
   terminal_condition_characterization sOnRoad rfl rfl (by decide)⟩

/-- A lane's `countTrue` is zero iff it holds no occupied cell. -/
theorem countTrue_eq_zero_iff (l : List Bool) :
    Canon.countTrue l = 0 ↔ true ∉ l := by
  induction l with
  | nil => simp [Canon.countTrue]
  | cons a t ih => cases a <;> simp [Canon.countTrue, ih]

/-- Clearing an occupied cell decreases the occupied count by one. -/
theorem countTrue_set_false (l : List Bool) (i : Nat)
    (h : l.getD i false = true) :
    Canon.countTrue (l.set i false) + 1 = Canon.countTrue l := by
  induction l generalizing i with
  | nil => simp at h
  | cons a t ih =>
    cases i with
    | zero =>
      simp only [List.getD_cons_zero] at h
      simp [List.set_cons_zero, Canon.countTrue, h]
      omega
    | succ n =>
      simp only [List.getD_cons_succ] at h
      simp only [List.set_cons_succ, Canon.countTrue]
      have := ih n h
      omega

/-- Setting one cell of an all-clear lane occupied yields count exactly 1.
-/
theorem countTrue_set_true (l : List Bool) (i : Nat) (hi : i < l.length)
    (h0 : Canon.countTrue l = 0) :
    Canon.countTrue (l.set i true) = 1 := by
  induction l generalizing i with
  | nil => simp at hi
  | cons a t ih =>
    cases a with
    | true => simp [Canon.countTrue] at h0
    | false =>
      simp only [Canon.countTrue, if_neg Bool.false_ne_true, Nat.zero_add] at h0
      cases i with
      | zero => simp [Canon.countTrue, h0]
      | succ n =>
        simp only [List.length_cons] at hi
        simp [Canon.countTrue, ih n (by omega) h0]

/-- The capping loop is the identity as soon as the count is at most 3. -/
theorem capLoop_le3 (caps : List Nat) (l : List Bool) (tc : Nat)
    (h : ¬ 3 < tc) :
    Canon.capLoop l tc caps = l := by
  cases caps <;> simp [Canon.capLoop, h]

/-- The capping loop never clears the last occupied cell: whenever it
clears one, the (correctly tracked) count was above 3. -/
theorem capLoop_pos (caps : List Nat) :
    ∀ (l : List Bool) (tc : Nat), tc = Canon.countTrue l → 0 < tc →
      0 < Canon.countTrue (Canon.capLoop l tc caps) := by
  induction caps with
  | nil =>
    intro l tc he hp
    rw [Canon.capLoop]
    omega
  | cons idx rest ih =>
    intro l tc he hp
    by_cases h3 : 3 < tc
    · by_cases hocc : l.getD (idx % 14) false = true
      · have hcnt := countTrue_set_false l (idx % 14) hocc
        simp only [Canon.capLoop, if_pos h3, hocc, if_true]
        exact ih _ (tc - 1) (by omega) (by omega)
      · have hb : l.getD (idx % 14) false = false := by
          cases hgd : l.getD (idx % 14) false
          · rfl
          · exact absurd hgd hocc
        simp only [Canon.capLoop, if_pos h3, hb, Bool.false_eq_true, if_false]
        exact ih l tc he hp
    · rw [capLoop_le3 _ _ _ h3]
      omega

/-- C8 (corrected).  Counterexample to the claim as stated: the `main.rs`
generator has no log-forcing step, so with all 14 Bernoulli draws false it
produces a water (stream) lane with zero occupied cells. -/
theorem main_water_lane_may_be_empty :
    (MainRs.create_random_row 0 0 true (List.replicate 14 false)).environment_label = Lab.water
    ∧ (MainRs.create_random_row 0 0 true (List.replicate 14 false)).isMoving = true
    ∧ Canon.countTrue (MainRs.create_random_row 0 0 true (List.replicate 14 false)).baseRow.objects = 0 := by
  decide

/-- C8 (corrected): for the `---.rs`/`--.rs` generator, every water lane
has at least one occupied cell immediately after generation, and when the
14 Bernoulli draws produced no occupied cell, exactly one randomly chosen
cell is forced occupied (the capping loop then leaves it untouched).  The
`main.rs` draft's generator performs no forcing and can produce an
all-clear water lane. -/
theorem canon_water_lane_has_log (g : ObjGen) (h14 : g.draws.length = 14) :
    0 < Canon.countTrue (Canon.BaseRow.randomized_objects Lab.pad Lab.water g).objects
    ∧ (g.draws.contains true = false →
        Canon.countTrue (Canon.BaseRow.randomized_objects Lab.pad Lab.water g).objects = 1) := by
  simp only [Canon.BaseRow.randomized_objects]
  by_cases hc : g.draws.contains true = false
  · have hmem : true ∉ g.draws := by simpa using hc
    have h0 : Canon.countTrue g.draws = 0 := (countTrue_eq_zero_iff g.draws).mpr hmem
    have hidx : g.forceIdx % 14 < g.draws.length := by
      rw [h14]
      exact Nat.mod_lt _ (by omega)
    have h1 : Canon.countTrue (g.draws.set (g.forceIdx % 14) true) = 1 :=
      countTrue_set_true _ _ hidx h0
    rw [if_pos ⟨trivial, hc⟩, h1, capLoop_le3 _ _ _ (by omega), h1]
    exact ⟨by omega, fun _ => rfl⟩
  · have hmem : true ∈ g.draws := by
      cases h : g.draws.contains true
      · exact absurd h hc
      · simpa using h
    rw [if_neg (fun hand => hc hand.2)]
    refine ⟨?_, fun hfalse => absurd hfalse hc⟩
    have h0 : 0 < Canon.countTrue g.draws := by
      by_contra hn
      have hz : Canon.countTrue g.draws = 0 := by omega
      exact absurd hmem (by simpa using (countTrue_eq_zero_iff g.draws).mp hz)
    exact capLoop_pos _ _ _ rfl h0

/-- Witness for C8's theorem: all-false draws (length 14) yield a water
lane with exactly one forced log. -/
theorem canon_water_lane_has_log_witness :
    objGenEmpty.draws.length = 14
    ∧ (0 < Canon.countTrue (Canon.BaseRow.randomized_objects Lab.pad Lab.water objGenEmpty).objects
       ∧ (objGenEmpty.draws.contains true = false →
           Canon.countTrue (Canon.BaseRow.randomized_objects Lab.pad Lab.water objGenEmpty).objects = 1)) :=
  ⟨by decide, canon_water_lane_has_log objGenEmpty (by decide)⟩

/-- C9 (corrected).  Counterexample to the claim as stated: the `main.rs`
draft's `Stream::check_position` indexes the cell vector without a bounds
check, so querying column 14 of a 14-cell lane panics (`Except.error`
models the index panic) instead of returning an out-of-range signal. -/
theorem main_check_position_panics :
    mStream14.dynamic_row.row.objects.length = 14
    ∧ MainRs.Stream.check_position mStream14 14 = Except.error () :=
  ⟨rfl, rfl⟩

/-- C9 (corrected): in the `---.rs`/`--.rs` draft the occupancy query is
total on every lane kind: on a lane with the invariant length 14, columns
in `[0,13]` answer `some` of the cell's occupancy and any larger column
answers the out-of-range signal `none` (no crash).  The `main.rs` draft's
`Stream::check_position` instead panics on out-of-range columns. -/
theorem canon_check_position_total (r : Canon.RowT) (i : Nat)
    (h14 : r.baseRow.objects.length = 14) :
    (i ≤ 13 → r.check_position i = some (r.baseRow.objects.getD i false))
    ∧ (13 < i → r.check_position i = none) := by
  constructor
  · intro hi
    unfold Canon.RowT.check_position
    rw [if_pos (by omega)]
  · intro hi
    unfold Canon.RowT.check_position
    rw [if_neg (by omega)]

/-- Witness for C9's theorem at column 20 of a 14-cell lane: the query
answers `none`. -/
theorem canon_check_position_total_witness :
    grassClear.baseRow.objects.length = 14
    ∧ ((20 ≤ 13 → grassClear.check_position 20 = some (grassClear.baseRow.objects.getD 20 false))
       ∧ (13 < 20 → grassClear.check_position 20 = none)) :=
  ⟨by decide, canon_check_position_total grassClear 20 (by decide)⟩

end Crossy
